import Mathlib

/-!
Verification development for the orbital-compute backend.

The definitions below are a shallow embedding of the Python sources:
`backend/sim/types.py`, `backend/sim/world.py`, `backend/sim/scenario.py`,
`backend/sim/env_routing.py`, `backend/sim/agent_routing_bandit.py`,
`backend/sim/env_failure.py`, `backend/services/starlink.py`,
`backend/services/orbit_model.py`, and the CORS / tick-metric pieces of
`backend/main.py`.

Conventions:
* Python floats are modelled as `ℚ` where the code only uses field
  operations and comparisons, and as `ℝ` where transcendental functions
  (sqrt, trig) appear.
* Python float division raises `ZeroDivisionError` on a zero divisor;
  this is modelled by `pydiv` returning `Except`.
* Python dicts keyed by strings are modelled as association lists in
  insertion order (iteration order of `dict.values()` is insertion order).
* Randomness (`random.*`, `np.random.*`) and wall-clock readings are
  modelled as caller-supplied oracle arguments; the claims proved below
  hold for every value of those oracles.
-/

/-- Python runtime errors that the modelled code can raise. -/
inductive PyErr where
  | zeroDivisionError
  | attributeError
  deriving DecidableEq, Repr

/-- Python float division: raises `ZeroDivisionError` when the divisor is
zero (unlike Lean field division, which returns 0). -/
def pydiv (a b : ℚ) : Except PyErr ℚ :=
  if b = 0 then .error .zeroDivisionError else .ok (a / b)

/-- Python `int(x)` for a rational `x`: truncation toward zero. -/
def pyInt (q : ℚ) : ℤ :=
  if 0 ≤ q then ⌊q⌋ else -⌊-q⌋

/-! ## Shared domain types (`backend/sim/types.py`) -/

/-- `types.Node`: `node_type` is the literal `"leo"` or `"ground"`. -/
structure Node where
  id : String
  name : String
  node_type : String
  region : String
  capacity_flops : ℚ
  power_cost_per_kwh : ℚ
  deriving DecidableEq, Repr

/-- `types.Link`.  `rtt_ms` is built from a haversine distance and is kept
in `ℝ`; congestion is only ever assigned rational values. -/
structure Link where
  id : String
  src_id : String
  dst_id : String
  rtt_ms : ℝ
  packet_loss : ℚ
  congestion_level : ℚ

/-- `types.Job`. -/
structure Job where
  id : String
  size_gb : ℚ
  flops : ℚ
  latency_slo_ms : ℚ
  deadline_s : ℚ
  jitter_tolerance_ms : ℚ
  deriving DecidableEq, Repr

/-- `types.RoutingDecision`: `source` is `"agent"` or `"rule_based"`. -/
structure RoutingDecision where
  job_id : String
  target_node_id : String
  source : String
  deriving DecidableEq, Repr

/-! ## World engine (`backend/sim/world.py`) -/

/-- One entry of `TOPOLOGY["groundSites"]`. -/
structure SiteSpec where
  id : String
  label : String
  lat : ℚ
  lon : ℚ
  region : String

/-- One entry of `TOPOLOGY["gateways"]`. -/
structure GatewaySpec where
  id : String
  label : String
  lat : ℚ
  lon : ℚ

/-- `world.TOPOLOGY["groundSites"]`. -/
def groundSiteSpecs : List SiteSpec :=
  [ ⟨"abilene_edge", "Abilene Edge DC", 3245/100, -9974/100, "southwest"⟩,
    ⟨"nova_hub", "Northern Virginia Hyperscale", 3902/100, -7748/100, "east_coast"⟩,
    ⟨"dfw_hub", "Dallas-Fort Worth Hyperscale", 3292/100, -9696/100, "southwest"⟩,
    ⟨"phx_hub", "Phoenix Hyperscale", 3345/100, -11207/100, "west_coast"⟩ ]

/-- `world.TOPOLOGY["gateways"]`. -/
def gatewaySpecs : List GatewaySpec :=
  [ ⟨"abilene_gateway", "Abilene Gateway", 326/10, -995/10⟩,
    ⟨"dfw_gateway", "DFW Gateway", 33, -97⟩,
    ⟨"nova_gateway", "NoVA Gateway", 391/10, -775/10⟩,
    ⟨"phx_gateway", "Phoenix Gateway", 334/10, -112⟩ ]

/-- The list `[gw["id"] for gw in TOPOLOGY["gateways"]]` used by
`get_candidate_nodes_for_job`. -/
def gatewayIds : List String :=
  gatewaySpecs.map GatewaySpec.id

/-- `World` state: the fields assigned in `World.__init__` that the
modelled methods read or write.  Dicts keep insertion order. -/
structure World where
  time_s : ℚ
  pending_jobs : List Job
  active_routes : List RoutingDecision
  nodes : List Node
  links : List Link
  job_counter : ℕ
  regional_load_multipliers : List (String × ℚ)
  fiber_cuts : List (String × String)
  disabled_shells : List (String × String)

/-- `World._build_nodes`: ground sites (150 TFLOPS, $0.05/kWh), gateways
(zero capacity and cost, region `"gateway"`), then one LEO node per
satellite (10 TFLOPS, zero cost, region `"orbit"`), in insertion order. -/
def buildNodes (numSats : ℕ) : List Node :=
  groundSiteSpecs.map (fun s =>
    ⟨s.id, s.label, "ground", s.region, 150000000000000, 5/100⟩)
  ++ gatewaySpecs.map (fun g =>
    ⟨g.id, g.label, "ground", "gateway", 0, 0⟩)
  ++ (List.range numSats).map (fun i =>
    ⟨"leo_" ++ toString i, "LEO Satellite " ++ toString i, "leo", "orbit",
      10000000000000, 0⟩)

/-- `math.atan2(y, x)`. -/
noncomputable def atan2 (y x : ℝ) : ℝ :=
  if 0 < x then Real.arctan (y / x)
  else if x < 0 then
    (if 0 ≤ y then Real.arctan (y / x) + Real.pi
     else Real.arctan (y / x) - Real.pi)
  else
    (if 0 < y then Real.pi / 2 else if y < 0 then -(Real.pi / 2) else 0)

/-- Great-circle distance (`world.haversine`), over `ℝ` because it uses
trigonometric functions. -/
noncomputable def haversineKm (lat1 lon1 lat2 lon2 : ℚ) : ℝ :=
  let rad : ℚ → ℝ := fun d => (d : ℝ) * Real.pi / 180
  let dlat := rad (lat2 - lat1)
  let dlon := rad (lon2 - lon1)
  let a := Real.sin (dlat / 2) ^ 2 +
    Real.cos (rad lat1) * Real.cos (rad lat2) * Real.sin (dlon / 2) ^ 2
  6371 * (2 * atan2 (Real.sqrt a) (Real.sqrt (1 - a)))

/-- `World._build_links`: every satellite-gateway pair at a flat 50 ms RTT
and loss 0.001, then every gateway-site pair at haversine/300000 km·s⁻¹
RTT and loss 0.0001.  Link ids are `link_<counter>`. -/
noncomputable def buildLinks (numSats : ℕ) : List Link :=
  let satGw :=
    ((List.range numSats).flatMap (fun i =>
      gatewaySpecs.map (fun g => ("leo_" ++ toString i, g.id))))
  let gwSite :=
    (gatewaySpecs.flatMap (fun g =>
      groundSiteSpecs.map (fun s => (g, s))))
  let first := satGw.enum.map (fun p =>
    { id := "link_" ++ toString p.1, src_id := p.2.1, dst_id := p.2.2,
      rtt_ms := 50, packet_loss := 1/1000, congestion_level := 0 })
  let second := gwSite.enum.map (fun p =>
    { id := "link_" ++ toString (satGw.length + p.1), src_id := p.2.1.id,
      dst_id := p.2.2.id,
      rtt_ms := haversineKm p.2.1.lat p.2.1.lon p.2.2.lat p.2.2.lon / 300000 * 1000,
      packet_loss := 1/10000, congestion_level := 0 })
  first ++ second

/-- `World.initialize` applied to a fresh `World()` (the constructor zeroes
every collection): nodes and links are built once from the topology and
the satellite count. -/
noncomputable def worldInit (numSats : ℕ) : World :=
  { time_s := 0, pending_jobs := [], active_routes := [],
    nodes := buildNodes numSats, links := buildLinks numSats,
    job_counter := 0, regional_load_multipliers := [], fiber_cuts := [],
    disabled_shells := [] }

/-- `World.get_candidate_nodes_for_job`: empty if the job is not pending;
otherwise every node that is not a gateway, is not a LEO node whose region
is a currently-disabled shell's region, and has positive capacity. -/
def getCandidateNodes (w : World) (jobId : String) : List Node :=
  match w.pending_jobs.find? (fun j => j.id == jobId) with
  | none => []
  | some _ =>
    w.nodes.filter (fun node =>
      !(gatewayIds.contains node.id) &&
      !(node.node_type == "leo" &&
        (w.disabled_shells.map Prod.snd).contains node.region) &&
      decide (0 < node.capacity_flops))

/-- The dict returned by `World.route_job`: either the error-tagged dict
(`{"error": ...}`) or the metrics dict. -/
inductive RouteResult where
  | errTag (tag : String)
  | metrics (latency_ms : ℚ) (cost_usd : ℚ) (slo_violated : Bool)
  deriving DecidableEq, Repr

/-- `World.route_job`.  Returns the result dict (or the raised error)
together with the world as mutated so far: the job is removed from the
pending queue before the cost division, so a `ZeroDivisionError` leaves
the queue already shortened, and the `rule_based` routing decision is
appended only on success. -/
def routeJob (w : World) (jobId nodeId : String) :
    Except PyErr RouteResult × World :=
  match w.pending_jobs.find? (fun j => j.id == jobId) with
  | none => (.ok (.errTag "job_not_found"), w)
  | some job =>
    match w.nodes.find? (fun n => n.id == nodeId) with
    | none => (.ok (.errTag "node_not_found"), w)
    | some node =>
      let w1 := { w with
        pending_jobs := w.pending_jobs.filter (fun j => !(j.id == jobId)) }
      let lat0 : ℚ := if node.node_type == "leo" then 50 else 10
      let lat := w.fiber_cuts.foldl (fun acc cut =>
        if node.region == cut.1 || node.region == cut.2 then acc * 2 else acc)
        lat0
      match pydiv job.flops node.capacity_flops with
      | .error e => (.error e, w1)
      | .ok q =>
        let cost := q * (node.power_cost_per_kwh / 1000) * (1/10)
        let slo : Bool := decide (job.latency_slo_ms < lat)
        let decision : RoutingDecision := ⟨jobId, nodeId, "rule_based"⟩
        (.ok (.metrics lat cost slo),
          { w1 with active_routes := w1.active_routes ++ [decision] })

/-- `world.WORKLOAD_PROFILE["hourly_arrival_rates"]`. -/
def hourlyArrivalRates : List ℚ :=
  [ 8/10, 6/10, 5/10, 4/10, 5/10, 7/10, 1, 12/10, 14/10, 15/10, 14/10, 13/10,
    12/10, 11/10, 1, 11/10, 12/10, 13/10, 14/10, 13/10, 11/10, 9/10, 8/10, 7/10 ]

/-- One entry of `WORKLOAD_PROFILE["job_classes"]` (the log-normal size
parameters only shape the random draw, which is an oracle here). -/
structure JobClass where
  name : String
  deadline_ms : ℚ

/-- `WORKLOAD_PROFILE["job_classes"]`: inference 20 ms, training 1000 ms,
batch 5000 ms deadlines. -/
def jobClasses : List JobClass :=
  [⟨"inference", 20⟩, ⟨"training", 1000⟩, ⟨"batch", 5000⟩]

/-- Oracle for `World.generate_jobs`'s randomness: for the k-th job of one
call, the weighted class choice and the drawn size `exp(normalvariate)`. -/
def JobDraws : Type := ℕ → Fin 3 × ℚ

/-- `World.generate_jobs(now)`: `int(rate * 100 * multiplier)` jobs, where
`rate` indexes the hourly table by `now.hour` and `multiplier` is the max
of 1 and the regional load multipliers; job k gets id
`job_<counter+k>`, the drawn class's deadline as SLO, `deadline/1000` as
deadline seconds and 10% of the deadline as jitter tolerance. -/
def generateJobs (w : World) (hour : ℕ) (draws : JobDraws) : World :=
  let rate := hourlyArrivalRates.getD (hour % 24) 0
  let mult := w.regional_load_multipliers.foldl (fun m p => max m p.2) 1
  let numJobs := (pyInt (rate * 100 * mult)).toNat
  let newJobs := (List.range numJobs).map (fun k =>
    let d := draws k
    let cls := jobClasses.getD d.1 ⟨"inference", 20⟩
    let size := d.2
    ({ id := "job_" ++ toString (w.job_counter + k)
       size_gb := size
       flops := size * 10 ^ 9 * 1000
       latency_slo_ms := cls.deadline_ms
       deadline_s := cls.deadline_ms / 1000
       jitter_tolerance_ms := cls.deadline_ms * (1/10) } : Job))
  { w with pending_jobs := w.pending_jobs ++ newJobs,
           job_counter := w.job_counter + numJobs }

/-- `World.advance_time`: bump the clock, generate jobs for the current
wall-clock hour (an oracle here), then recompute every link's congestion
as `min 1 (touching_routes / 100)`. -/
def advanceTime (w : World) (dt : ℚ) (hour : ℕ) (draws : JobDraws) : World :=
  let w1 := generateJobs { w with time_s := w.time_s + dt } hour draws
  { w1 with links := w1.links.map (fun link =>
      let active := (w1.active_routes.filter (fun r =>
        r.target_node_id == link.src_id || r.target_node_id == link.dst_id)).length
      { link with congestion_level := min 1 ((active : ℚ) / 100) }) }

/-- `World.get_performance_metrics`: `(avg_latency_ms, slo_violation_rate)`;
zeros when no routes are active, otherwise latency / violations are only
accumulated for routes whose job is still pending and whose node exists. -/
def perfMetrics (w : World) : ℚ × ℚ :=
  match w.active_routes with
  | [] => (0, 0)
  | routes =>
    let acc := routes.foldl (fun (acc : ℚ × ℕ) route =>
      match w.pending_jobs.find? (fun j => j.id == route.job_id) with
      | none => acc
      | some job =>
        match w.nodes.find? (fun n => n.id == route.target_node_id) with
        | none => acc
        | some node =>
          let lat : ℚ := if node.node_type == "ground" then 10 else 50
          (acc.1 + lat, if job.latency_slo_ms < lat then acc.2 + 1 else acc.2))
      (0, 0)
    (acc.1 / routes.length, (acc.2 : ℚ) / routes.length)

/-- `World.trigger_global_reroute`: if more than 10 routes are active,
truncate the list to its first half. -/
def triggerGlobalReroute (w : World) : World :=
  if 10 < w.active_routes.length then
    { w with active_routes := w.active_routes.take (w.active_routes.length / 2) }
  else w

/-- Python dict insert `d[k] = v`: overwrite in place if the key exists,
else append. -/
def dictInsert (l : List (String × String)) (k v : String) :
    List (String × String) :=
  if l.any (fun p => p.1 == k) then
    l.map (fun p => if p.1 == k then (k, v) else p)
  else l ++ [(k, v)]

/-- `World.disable_leo_shell`: record `shell_id -> region`. -/
def disableLeoShell (w : World) (shellId region : String) : World :=
  { w with disabled_shells := dictInsert w.disabled_shells shellId region }

/-- `World.set_regional_load`. -/
def setRegionalLoad (w : World) (region : String) (mult : ℚ) : World :=
  { w with regional_load_multipliers :=
      (if w.regional_load_multipliers.any (fun p => p.1 == region) then
        w.regional_load_multipliers.map
          (fun p => if p.1 == region then (region, mult) else p)
      else w.regional_load_multipliers ++ [(region, mult)]) }

/-- `World.cut_fiber_between`. -/
def cutFiberBetween (w : World) (a b : String) : World :=
  { w with fiber_cuts := w.fiber_cuts ++ [(a, b)] }

/-! ## Scenario generator (`backend/sim/scenario.py`) -/

/-- `scenario.ScenarioConfig`. -/
structure ScenarioConfig where
  id : String
  type : String
  description : String
  load_region : Option String := none
  load_multiplier : ℚ := 1
  outage_region : Option String := none
  outage_satellite_shell : Option String := none
  fiber_cut_region_pair : Option (List String) := none
  deriving DecidableEq, Repr

/-- `scenario.PRESET_SCENARIOS`, verbatim: the module-level catalog holds
three configurations (there is no `default` entry, although `"default"`
is a member of the `ScenarioType` literal type). -/
def PRESET_SCENARIOS : List ScenarioConfig :=
  [ { id := "asia_sports_final", type := "asia_sports_final",
      description := "3x load over East Asia for 90 minutes.",
      load_region := some "east_asia", load_multiplier := 3 },
    { id := "transatlantic_fiber_cut", type := "transatlantic_fiber_cut",
      description := "Major transatlantic fiber cut forcing LEO routing.",
      fiber_cut_region_pair := some ["north_america", "europe"] },
    { id := "leo_shell_outage", type := "leo_shell_outage",
      description := "One LEO shell goes offline over the Pacific.",
      outage_region := some "pacific",
      outage_satellite_shell := some "shell_1" } ]

/-- `scenario.get_preset_scenarios`: returns the catalog itself. -/
def getPresetScenarios : List ScenarioConfig := PRESET_SCENARIOS

/-- `scenario.apply_scenario`: look the id up in the catalog (no-op when
absent) and fire the hooks for whichever optional knobs are set. -/
def applyScenario (w : World) (scenarioId : String) : World :=
  match PRESET_SCENARIOS.find? (fun s => s.id == scenarioId) with
  | none => w
  | some sc =>
    let w1 := match sc.load_region with
      | some r => setRegionalLoad w r sc.load_multiplier
      | none => w
    let w2 := match sc.fiber_cut_region_pair with
      | some (a :: b :: _) => cutFiberBetween w1 a b
      | _ => w1
    match sc.outage_satellite_shell with
    | some shell => disableLeoShell w2 shell (sc.outage_region.getD "")
    | none => w2

/-! ## Routing environment, bandit agent, controller
(`backend/sim/env_routing.py`, `backend/sim/agent_routing_bandit.py`) -/

/-- `RoutingEnvV1._encode_state`: the 8-feature vector over the snapshot's
links and the head job (means/std/min over an empty link list default
to 0). -/
noncomputable def encodeState (links : List Link) (job : Job) : Fin 8 → ℝ :=
  let rtts : List ℝ := links.map Link.rtt_ms
  let congs : List ℚ := links.map Link.congestion_level
  let avgRtt : ℝ := if rtts.length = 0 then 0 else rtts.sum / rtts.length
  let stdRtt : ℝ := if rtts.length = 0 then 0 else
    Real.sqrt ((rtts.map (fun x => (x - avgRtt) ^ 2)).sum / rtts.length)
  let minRtt : ℝ := match rtts with | [] => 0 | x :: xs => xs.foldl min x
  let avgCong : ℝ := if congs.length = 0 then 0 else
    ((congs.sum : ℚ) : ℝ) / congs.length
  let maxCong : ℝ := match congs with
    | [] => 0
    | x :: xs => ((xs.foldl max x : ℚ) : ℝ)
  ![(job.size_gb : ℝ), (job.flops : ℝ) / 10 ^ 12, (job.latency_slo_ms : ℝ) / 1000,
    avgRtt / 1000, stdRtt / 1000, minRtt / 1000, avgCong, maxCong]

/-- `RoutingBanditAgent`: a single shared 8-dimensional weight vector,
`lr = 0.01`, `epsilon = 0.1`. -/
structure RoutingBanditAgent where
  w : Fin 8 → ℝ

/-- `RoutingBanditAgent.update`: `w += lr * reward * state`. -/
noncomputable def banditUpdate (ag : RoutingBanditAgent) (state : Fin 8 → ℝ) (reward : ℝ) :
    RoutingBanditAgent :=
  ⟨fun i => ag.w i + (1/100) * reward * state i⟩

open Classical in
/-- `RoutingBanditAgent.select_action`.  The two `np.random` draws are
oracle arguments: `randVal` models `np.random.rand()` and `randIdx`
models `np.random.randint(num_actions)` (reduced mod `numActions`). -/
noncomputable def banditSelectAction (ag : RoutingBanditAgent)
    (state : Fin 8 → ℝ) (numActions : ℕ) (randVal : ℝ) (randIdx : ℕ) : ℕ :=
  if numActions = 0 then 0
  else if randVal < 1/10 then randIdx % numActions
  else if 0 ≤ ∑ i, state i * ag.w i then 0
  else randIdx % numActions

/-- The dict `.get` defaults used by `RoutingEnvV1.step` on `route_job`'s
result: `result.get("latency_ms", 0.0)`. -/
def resultLatency : RouteResult → ℚ
  | .metrics l _ _ => l
  | .errTag _ => 0

/-- `result.get("cost_usd", 0.0)`. -/
def resultCost : RouteResult → ℚ
  | .metrics _ c _ => c
  | .errTag _ => 0

/-- `result.get("slo_violated", False)`. -/
def resultSlo : RouteResult → Bool
  | .metrics _ _ s => s
  | .errTag _ => false

/-- The attribute names assigned in `RoutingController.__init__`:
`self.env`, `self.agent`, `self._last_state`, `self._last_meta`.
`self.world` is never assigned. -/
def controllerInitAttrs : List String :=
  ["env", "agent", "_last_state", "_last_meta"]

/-- Python attribute lookup of `self.world` on the controller: raises
`AttributeError` because the name is not among the assigned attributes. -/
def controllerGetWorld : Except PyErr Unit :=
  if controllerInitAttrs.contains "world" then .ok () else .error .attributeError

/-- In-place relabel of `active_routes[-1].source = "agent"` performed by
the controller when the attribute lookup succeeds. -/
def relabelLast (routes : List RoutingDecision) : List RoutingDecision :=
  match routes.getLast? with
  | none => routes
  | some d => routes.dropLast ++ [{ d with source := "agent" }]

/-- The body of `RoutingEnvV1.step` (from the routing of the chosen node
on) followed by the controller's post-step actions: route the job,
compute the reward, update the agent, then execute the controller's
`self.world.active_routes` lookup and (on success) relabel the latest
routing decision and build the returned `RoutingDecision`. -/
noncomputable def stepAndRelabel (w : World) (ag : RoutingBanditAgent)
    (state : Fin 8 → ℝ) (job : Job) (chosen : Node) :
    Except PyErr (Option RoutingDecision) × World × RoutingBanditAgent :=
  let step := routeJob w job.id chosen.id
  match step.1 with
  | .error e => (.error e, step.2, ag)
  | .ok r =>
    let reward : ℝ := -(1/1000) * (resultLatency r : ℝ) - (resultCost r : ℝ)
      - (if resultSlo r then 5 else 0)
    let ag1 := banditUpdate ag state reward
    match controllerGetWorld with
    | .error e => (.error e, step.2, ag1)
    | .ok _ =>
      (.ok (some ⟨job.id, chosen.id, "agent"⟩),
        { step.2 with active_routes := relabelLast step.2.active_routes },
        ag1)

/-- `RoutingController.decide_for_next_job`, inlining `env.reset` and
`env.step`: read the snapshot; with no pending job (or no candidates for
the head job) return `None`; otherwise select an action and run
`stepAndRelabel` on the chosen candidate.  Returns the outcome together
with the world and agent as mutated so far (mutations before a raised
exception persist, as in Python). -/
noncomputable def decideForNextJob (w : World) (ag : RoutingBanditAgent)
    (randVal : ℝ) (randIdx : ℕ) :
    Except PyErr (Option RoutingDecision) × World × RoutingBanditAgent :=
  match w.pending_jobs.head? with
  | none => (.ok none, w, ag)
  | some job =>
    match getCandidateNodes w job.id with
    | [] => (.ok none, w, ag)
    | c0 :: cs =>
      let state := encodeState w.links job
      let actionIdx :=
        banditSelectAction ag state (c0 :: cs).length randVal randIdx
      stepAndRelabel w ag state job ((c0 :: cs).get
        ⟨actionIdx % (c0 :: cs).length, Nat.mod_lt _ (Nat.succ_pos _)⟩)

/-! ## Failure environment (`backend/sim/env_failure.py`) -/

/-- `FailureEnvV1._compute_metrics`: delegates to the world engine's
performance metrics (the snapshot argument is ignored by the code). -/
def failureSample (w : World) : ℚ × ℚ := perfMetrics w

/-- `FailureEnvV1._encode_state`: 4 features from the history window. -/
def failureEncodeState (hist : List (ℚ × ℚ)) : Fin 4 → ℚ :=
  match hist with
  | [] => ![0, 0, 0, 0]
  | _ =>
    let lats := hist.map Prod.fst
    let viols := hist.map Prod.snd
    ![(lats.getLast?.getD 0) / 1000, (lats.sum / lats.length) / 1000,
      viols.getLast?.getD 0, viols.sum / viols.length]

/-- `FailureEnvV1.reset`: clear the history and take one fresh sample. -/
def failureEnvReset (w : World) : List (ℚ × ℚ) := [failureSample w]

/-- The world transition and sample taken inside `FailureEnvV1.step`:
optionally trigger the global reroute, advance world time by 1 simulated
second, and read the new metrics. -/
def failureStepSample (w : World) (action hour : ℕ) (draws : JobDraws) :
    World × (ℚ × ℚ) :=
  let w1 := if action = 1 then triggerGlobalReroute w else w
  let w2 := advanceTime w1 1 hour draws
  (w2, failureSample w2)

/-- `FailureEnvV1.step` with `window_size = 5` (the default, used by
`FailureAgent`): append the new sample and pop the oldest entry when the
window exceeds 5; reward `-0.001*avg_latency - 2*slo_rate`; never done. -/
def failureEnvStep (w : World) (hist : List (ℚ × ℚ)) (action hour : ℕ)
    (draws : JobDraws) : World × List (ℚ × ℚ) × ℚ :=
  let s := failureStepSample w action hour draws
  let h2 := hist ++ [s.2]
  let h3 := if 5 < h2.length then h2.tail else h2
  (s.1, h3, -(1/1000) * s.2.1 - 2 * s.2.2)

/-- One external call into the environment: `reset()` or `step(action)`
(each step also carries the wall-clock hour and random draws its inner
`advance_time` consumes). -/
inductive FailureOp where
  | reset
  | step (action hour : ℕ) (draws : JobDraws)

/-- Run a sequence of `reset`/`step` calls against the environment,
threading the world and the history window. -/
def runFailureOps : World → List (ℚ × ℚ) → List FailureOp → World × List (ℚ × ℚ)
  | w, h, [] => (w, h)
  | w, _, .reset :: ops => runFailureOps w (failureEnvReset w) ops
  | w, h, .step a hr d :: ops =>
    let s := failureEnvStep w h a hr d
    runFailureOps s.1 s.2.1 ops

/-! ## Starlink TLE service (`backend/services/starlink.py`) -/

/-- Python `str.strip()`: drop leading and trailing whitespace
(structurally, over the character list). -/
def pyStrip (s : String) : String :=
  String.mk
    (((s.toList.dropWhile Char.isWhitespace).reverse.dropWhile
        Char.isWhitespace).reverse)

/-- Python `str.startswith(p)`. -/
def pyStartsWith (s p : String) : Bool :=
  p.toList.isPrefixOf s.toList

/-- Splitting a character list on a separator character (every occurrence
splits; an empty input yields one empty field, as Python's
`"".split("\n") == [""]`). -/
def splitCharsOn (sep : Char) : List Char → List (List Char)
  | [] => [[]]
  | c :: cs =>
    let r := splitCharsOn sep cs
    if c = sep then [] :: r
    else
      match r with
      | h :: t => (c :: h) :: t
      | [] => [[c]]

/-- Python `text.split("\n")`. -/
def pySplitNewlines (s : String) : List String :=
  (splitCharsOn (Char.ofNat 10) s.toList).map (fun l => String.mk l)

/-- The identifying data of an `EarthSatellite(line1, line2, name, ts)`.
The skyfield constructor is an external black box (spec §6); it is
modelled by the data handed to it. -/
structure TleSat where
  name : String
  line1 : String
  line2 : String
  deriving DecidableEq, Repr

/-- External `EarthSatellite` construction on a well-formed record. -/
def mkEarthSatellite (l1 l2 nm : String) : TleSat := ⟨nm, l1, l2⟩

/-- One entry of `StarlinkService.tle_data`. -/
structure TleRec where
  id : String
  name : String
  tleLine1 : String
  tleLine2 : String
  deriving DecidableEq, Repr

/-- The loop body of `StarlinkService._parse_tles`: walk the lines in
3-line groups; keep a group only when its second and third stripped lines
start with `"1 "` and `"2 "`; the parallel record's id is
`sat_<number-of-satellites-after-this-append>`, i.e. 1-indexed. -/
def parseGroups : List String → ℕ → List TleSat × List TleRec
  | nm :: l1 :: l2 :: rest, count =>
    let name := pyStrip nm
    let line1 := pyStrip l1
    let line2 := pyStrip l2
    if pyStartsWith line1 "1 " && pyStartsWith line2 "2 " then
      let sat := mkEarthSatellite line1 line2 name
      let tl := parseGroups rest (count + 1)
      (sat :: tl.1, ⟨"sat_" ++ toString (count + 1), name, line1, line2⟩ :: tl.2)
    else parseGroups rest count
  | _, _ => ([], [])

/-- `StarlinkService._parse_tles(text)`: strip, split on newlines, walk in
3-line groups. -/
def parseTLEs (text : String) : List TleSat × List TleRec :=
  parseGroups (pySplitNewlines (pyStrip text)) 0

/-- Zero-padding used by the `{:05d}` / fixed-point format specifiers in
`_create_dummy_satellites`. -/
def padZeros (width : ℕ) (n : ℕ) : String :=
  let s := toString n
  String.mk (List.replicate (width - s.length) '0') ++ s

/-- `{:08.4f}` applied to `raan = i * 3.6` (exact in fixed point). -/
def dummyRaanStr (i : ℕ) : String :=
  let v := i * 36000
  padZeros 3 (v / 10000) ++ "." ++ padZeros 4 (v % 10000)

/-- The first element line of dummy satellite `i`
(`epoch_day = 325.0` formatted `{:012.8f}` is `325.00000000`). -/
def dummyLine1 (i : ℕ) : String :=
  "1 " ++ padZeros 5 (50000 + i) ++
    "U 23001A   325.00000000  .00000000  00000+0  00000+0 0  9999"

/-- The second element line of dummy satellite `i` (`{:8.4f}` of 53.0 is
`" 53.0000"`, `{:11.8f}` of 15.0 is `"15.00000000"`). -/
def dummyLine2 (i : ℕ) : String :=
  "2 " ++ padZeros 5 (50000 + i) ++ " " ++ " 53.0000" ++ " " ++
    dummyRaanStr i ++ " 0000000   0.0000 270.0000 " ++ "15.00000000"

/-- `StarlinkService._create_dummy_satellites`: 100 placeholder satellites
with deterministic elements (inclination 53°, mean motion 15 rev/day,
ascending node `i * 3.6°`). -/
def createDummySatellites : List TleSat :=
  (List.range 100).map (fun i =>
    mkEarthSatellite (dummyLine1 i) (dummyLine2 i)
      ("STARLINK-" ++ toString (i + 1000)))

/-- The outcome of one `client.get(url, ...)` call: either a raised
network error (caught per-URL by the code) or a response with a status
code and body text. -/
inductive UrlOutcome where
  | failure
  | response (status : ℕ) (body : String)

/-- The environment `fetch_and_cache_tles` runs in: cache-file presence,
the parsed content of the timestamp file (`none` models an unreadable or
unparsable value, whose exception the code catches), the current time,
the cache file's text, and the outcomes of the two CelesTrak URLs. -/
structure FetchEnv where
  cacheExists : Bool
  cacheTimeExists : Bool
  cacheTime : Option ℚ
  now : ℚ
  cacheText : String
  url1 : UrlOutcome
  url2 : UrlOutcome

/-- Which arm of the fallback chain produced the returned fleet. -/
inductive FetchSource where
  | freshCache
  | network
  | staleCache
  | dummy
  deriving DecidableEq, Repr

/-- The per-URL success test inside the fetch loop: HTTP 200, a body not
beginning (after stripping) with the HTML document marker, and a parse
that yields at least one satellite. -/
def urlSuccess : UrlOutcome → Option (List TleSat)
  | .failure => none
  | .response status body =>
    if status = 200 && !(pyStartsWith (pyStrip body) "<!DOCTYPE") then
      let sats := (parseTLEs body).1
      if 0 < sats.length then some sats else none
    else none

/-- `StarlinkService._load_from_cache`: parse the cache file's text (its
internal try/except only concerns file-read errors, which the environment
models by the text it provides). -/
def loadFromCache (env : FetchEnv) : List TleSat := (parseTLEs env.cacheText).1

/-- The fetch loop plus the two fallbacks that follow it. -/
def fetchFromUrls (env : FetchEnv) : FetchSource × List TleSat :=
  match urlSuccess env.url1 with
  | some sats => (.network, sats)
  | none =>
    match urlSuccess env.url2 with
    | some sats => (.network, sats)
    | none =>
      if env.cacheExists then (.staleCache, loadFromCache env)
      else (.dummy, createDummySatellites)

/-- `StarlinkService.fetch_and_cache_tles` with `cache_max_age = 7200` s:
fresh cache (age < 2 h) → network fetch (first URL that succeeds) →
stale cache → dummy fleet.  Every failure path is caught by the code, so
the model is a total function of its environment. -/
def fetchAndCacheTles (env : FetchEnv) : FetchSource × List TleSat :=
  if env.cacheExists && env.cacheTimeExists then
    match env.cacheTime with
    | some t =>
      if env.now - t < 7200 then (.freshCache, loadFromCache env)
      else fetchFromUrls env
    | none => fetchFromUrls env
  else fetchFromUrls env

/-! ## Orbit model (`backend/services/orbit_model.py`) -/

/-- A geocentric position vector in km (`pos.position.km`). -/
structure Vec3 where
  x : ℝ
  y : ℝ
  z : ℝ

/-- Componentwise difference (`[a[i] - b[i] for i in range(3)]`). -/
def relVec (a b : Vec3) : Vec3 := ⟨a.x - b.x, a.y - b.y, a.z - b.z⟩

/-- Euclidean dot product of the 3-vectors. -/
def dot3 (a b : Vec3) : ℝ := a.x * b.x + a.y * b.y + a.z * b.z

/-- Vector magnitude `sqrt(sum(v[i] ** 2))`. -/
noncomputable def mag (v : Vec3) : ℝ := Real.sqrt (v.x ^ 2 + v.y ^ 2 + v.z ^ 2)

/-- Componentwise normalisation `[v[i] / mag for i in range(3)]`. -/
noncomputable def normVec (v : Vec3) : Vec3 :=
  ⟨v.x / mag v, v.y / mag v, v.z / mag v⟩

/-- `max(-1.0, min(1.0, x))`. -/
noncomputable def clamp1 (t : ℝ) : ℝ := max (-1) (min 1 t)

/-- The clamped cosine `dot_norm` of `compute_sunlit`. -/
noncomputable def dotNorm (satRel sunRel : Vec3) : ℝ :=
  clamp1 (dot3 (normVec satRel) (normVec sunRel))

/-- `shadow_angle = asin(R_earth / sat_dist)` when the satellite is beyond
one Earth radius, else `pi / 2`. -/
noncomputable def shadowAngle (satDist : ℝ) : ℝ :=
  if 6371 < satDist then Real.arcsin (6371 / satDist) else Real.pi / 2

/-- `umbra_angle = pi - shadow_angle`. -/
noncomputable def umbraAngle (satDist : ℝ) : ℝ := Real.pi - shadowAngle satDist

/-- `penumbra_threshold = math.radians(100)`. -/
noncomputable def penumbraThreshold : ℝ := 100 * (Real.pi / 180)

/-- The angle `acos(dot_norm)` computed by `compute_sunlit` on the night
side beside the thresholds. -/
noncomputable def angleBetween (satRel sunRel : Vec3) : ℝ :=
  Real.arccos (dotNorm satRel sunRel)

open Classical in
/-- `orbit_model.compute_sunlit(sat_pos, earth_pos, sun_pos)`: sunlit by
default (including zero-magnitude degenerate vectors); on the night side
(`dot_norm <= 0`) classified dark beyond the umbra angle, and also dark
beyond the 100° penumbra threshold. -/
noncomputable def computeSunlit (satPos earthPos sunPos : Vec3) : Bool :=
  if mag (relVec satPos earthPos) = 0 ∨ mag (relVec sunPos earthPos) = 0 then
    true
  else if dotNorm (relVec satPos earthPos) (relVec sunPos earthPos) ≤ 0 then
    if umbraAngle (mag (relVec satPos earthPos)) <
        angleBetween (relVec satPos earthPos) (relVec sunPos earthPos) then
      false
    else if penumbraThreshold <
        angleBetween (relVec satPos earthPos) (relVec sunPos earthPos) then
      false
    else true
  else true

/-! ## Orchestrator pieces (`backend/main.py`) -/

/-- The CORS registration (`backend/main.py` lines 28-34): a hard-coded
origin list with credentials enabled.  No environment variable is
consulted anywhere in the module. -/
structure CorsConfig where
  allowOrigins : List String
  allowCredentials : Bool
  deriving DecidableEq, Repr

/-- The configuration the code actually installs. -/
def corsConfig : CorsConfig :=
  ⟨["http://localhost:3000", "http://127.0.0.1:3000"], true⟩

/-- Modelled from the spec: the CORS behaviour §6 claims — read the
`ALLOWED_ORIGINS` environment variable; with it unset permit all origins
(`*`) without credentials, with it set permit the comma-separated origins
with credentials.  No such logic exists in `backend/main.py`; this
definition exists only to compare the spec's words against `corsConfig`. -/
def corsConfigSpec (env : Option String) : CorsConfig :=
  match env with
  | none => ⟨["*"], false⟩
  | some s => ⟨s.splitOn ",", true⟩

/-- Per-hub utilization in the tick: `min(1, jobs_running / 50.0)`. -/
def hubUtil (jobsRunning : ℤ) : ℚ := min 1 ((jobsRunning : ℚ) / 50)

/-- Per-hub power: `utilization * 0.003 * len(sats)` MW. -/
def hubPowerMw (jobsRunning : ℤ) (numSats : ℕ) : ℚ :=
  hubUtil jobsRunning * (3/1000) * numSats

/-- Per-ground-site power: `min(150, jobs_running * 0.5) * 1.3` (PUE),
halved for NoVA under the `fiber_cut` scenario. -/
def sitePowerMw (jobsRunning : ℤ) (halved : Bool) : ℚ :=
  let p := min 150 ((jobsRunning : ℚ) * (1/2)) * (13/10)
  if halved then p * (1/2) else p

/-- The tick's job split and power totals (`update_simulation` lines
715-790): `int(len(jobs) * offload/100)` orbital jobs divided evenly
(floor) across hubs, the rest divided evenly (floor) across the four
ground sites; summed per-hub and per-site powers. -/
def tickPowerTotals (numJobs : ℕ) (offload : ℚ) (hubSizes : List ℕ)
    (mode : String) : ℚ × ℚ :=
  let numOrbital : ℤ := pyInt ((numJobs : ℚ) * (offload / 100))
  let numGround : ℤ := (numJobs : ℤ) - numOrbital
  let jobsPerHub : ℤ :=
    if hubSizes.length = 0 then 0 else Int.fdiv numOrbital hubSizes.length
  let jobsPerSite : ℤ := Int.fdiv numGround 4
  ((hubSizes.map (fun n => hubPowerMw jobsPerHub n)).sum,
   (groundSiteSpecs.map (fun s => sitePowerMw jobsPerSite
      (mode == "fiber_cut" && s.id == "nova_hub"))).sum)

/-- `orbit_share` (`backend/main.py` line 839):
`orbital / (orbital + ground) * 100` when the sum is positive, else 0. -/
def orbitShare (orbitalPower groundPower : ℚ) : ℚ :=
  if 0 < orbitalPower + groundPower then
    orbitalPower / (orbitalPower + groundPower) * 100
  else 0

/-! ## Concrete fixtures used by witnesses and counterexamples -/

/-- A pending inference-class job used by concrete worlds below. -/
def testJob : Job :=
  ⟨"job_0", 1, 10 ^ 12, 20, 2/100, 2⟩

/-- A small world: the `initialize` node set for two satellites, one
pending job, no links (links play no role in routing decisions). -/
def cWorld : World :=
  ⟨0, [testJob], [], buildNodes 2, [], 1, [], [], []⟩

/-! ## C2: `route_job` on a zero-capacity node -/

/-- Helper: `pydiv` by zero raises. -/
theorem pydiv_zero (a : ℚ) : pydiv a 0 = .error .zeroDivisionError := by
  simp [pydiv]

/-- C2 (amended): for every world, pending job and node in the node map
whose `capacity_flops` is zero (a gateway in particular), `route_job`
raises `ZeroDivisionError` in its cost computation
`job.flops / node.capacity_flops` (Python float division by zero raises);
it does not complete. -/
theorem route_job_zero_capacity_raises (w : World) (jobId nodeId : String)
    (job : Job) (node : Node)
    (hj : w.pending_jobs.find? (fun j => j.id == jobId) = some job)
    (hn : w.nodes.find? (fun n => n.id == nodeId) = some node)
    (hc : node.capacity_flops = 0) :
    (routeJob w jobId nodeId).1 = .error .zeroDivisionError := by
  simp only [routeJob, hj, hn, hc, pydiv_zero]

/-- C2 witness: the hypotheses of `route_job_zero_capacity_raises` hold at
the concrete world `cWorld`, job `job_0` and node `nova_gateway` (capacity
0, power cost 0), and the call raises. -/
theorem route_job_zero_capacity_raises_witness :
    cWorld.pending_jobs.find? (fun j => j.id == "job_0") = some testJob ∧
    (∃ node, cWorld.nodes.find? (fun n => n.id == "nova_gateway") = some node ∧
      node.capacity_flops = 0 ∧ node.power_cost_per_kwh = 0) ∧
    (routeJob cWorld "job_0" "nova_gateway").1 = .error .zeroDivisionError :=
  ⟨rfl, ⟨⟨"nova_gateway", "NoVA Gateway", "ground", "gateway", 0, 0⟩, rfl, rfl, rfl⟩,
    route_job_zero_capacity_raises cWorld "job_0" "nova_gateway" testJob
      ⟨"nova_gateway", "NoVA Gateway", "ground", "gateway", 0, 0⟩ rfl rfl rfl⟩

/-- C2 counterexample: the claim as stated — that `route_job` on a node
with zero capacity and zero power cost completes without a
division-by-zero error — is false at the concrete input `cWorld`,
`job_0`, `nova_gateway`: the call raises `ZeroDivisionError`. -/
theorem route_job_gateway_divzero_example :
    (routeJob cWorld "job_0" "nova_gateway").1 = .error .zeroDivisionError :=
  rfl

/-! ## C3: the preset scenario catalog -/

/-- C3 counterexample: the catalog has three entries, not four, and none
of them is a `default` scenario. -/
theorem preset_catalog_not_four :
    getPresetScenarios.length = 3 ∧
    (getPresetScenarios.map ScenarioConfig.id).contains "default" = false :=
  ⟨rfl, rfl⟩

/-- C3 (amended): `get_preset_scenarios()` returns the immutable
module-level catalog verbatim: exactly three scenario configurations —
`asia_sports_final` (3x load over `east_asia`), `transatlantic_fiber_cut`
(fiber-cut pair north_america/europe) and `leo_shell_outage` (`shell_1`
over `pacific`); there is no `default` catalog entry. -/
theorem preset_catalog_three_verbatim :
    getPresetScenarios = PRESET_SCENARIOS ∧
    getPresetScenarios.map ScenarioConfig.id =
      ["asia_sports_final", "transatlantic_fiber_cut", "leo_shell_outage"] ∧
    getPresetScenarios.map (fun s =>
        (s.load_region, s.load_multiplier, s.fiber_cut_region_pair,
         s.outage_satellite_shell, s.outage_region)) =
      [(some "east_asia", 3, none, none, none),
       (none, 1, some ["north_america", "europe"], none, none),
       (none, 1, none, some "shell_1", some "pacific")] :=
  ⟨rfl, rfl, rfl⟩

/-! ## C6: CORS configuration -/

/-- C6 counterexample: with `ALLOWED_ORIGINS` unset the spec's description
demands all origins (`*`) without credentials; the installed configuration
is a hard-coded two-origin list with credentials, so the claim fails. -/
theorem cors_config_not_spec : corsConfig ≠ corsConfigSpec none := by
  decide

/-- C6 (amended): the CORS configuration is hard-coded — it permits
exactly `http://localhost:3000` and `http://127.0.0.1:3000`, with
credentials, and does not match the spec's `ALLOWED_ORIGINS`-unset
behaviour; no environment variable is consulted. -/
theorem cors_config_hardcoded :
    corsConfig.allowOrigins = ["http://localhost:3000", "http://127.0.0.1:3000"] ∧
    corsConfig.allowCredentials = true ∧
    corsConfig ≠ corsConfigSpec none := by
  refine ⟨rfl, rfl, ?_⟩
  decide

/-! ## C4: the orbit-share metric -/

/-- Helper: `pyInt` of a nonnegative rational is its floor. -/
theorem pyInt_of_nonneg (q : ℚ) (h : 0 ≤ q) : pyInt q = ⌊q⌋ := by
  simp [pyInt, h]

/-- Helper: `pyInt` of a nonnegative rational is nonnegative. -/
theorem pyInt_nonneg (q : ℚ) (h : 0 ≤ q) : 0 ≤ pyInt q := by
  rw [pyInt_of_nonneg q h]
  exact Int.floor_nonneg.mpr h

/-- Helper: the hub power term is nonnegative for a nonnegative job
count. -/
theorem hubPowerMw_nonneg (j : ℤ) (n : ℕ) (hj : 0 ≤ j) :
    0 ≤ hubPowerMw j n := by
  unfold hubPowerMw hubUtil
  have h1 : (0:ℚ) ≤ min 1 ((j : ℚ) / 50) := by
    apply le_min (by norm_num)
    positivity
  positivity

/-- Helper: the site power term is nonnegative for a nonnegative job
count. -/
theorem sitePowerMw_nonneg (j : ℤ) (b : Bool) (hj : 0 ≤ j) :
    0 ≤ sitePowerMw j b := by
  unfold sitePowerMw
  have h1 : (0:ℚ) ≤ min 150 ((j : ℚ) * (1/2)) := by
    apply le_min (by norm_num)
    positivity
  cases b <;> simp <;> positivity

/-- Helper: both tick power totals are nonnegative when the offload
percentage lies in [0, 100] (the `POST /scenario` handler clamps it
there). -/
theorem tickPowerTotals_nonneg (numJobs : ℕ) (offload : ℚ)
    (hubSizes : List ℕ) (mode : String)
    (h0 : 0 ≤ offload) (h100 : offload ≤ 100) :
    0 ≤ (tickPowerTotals numJobs offload hubSizes mode).1 ∧
    0 ≤ (tickPowerTotals numJobs offload hubSizes mode).2 := by
  have hq0 : (0:ℚ) ≤ (numJobs : ℚ) * (offload / 100) := by positivity
  have horb : 0 ≤ pyInt ((numJobs : ℚ) * (offload / 100)) :=
    pyInt_nonneg _ hq0
  have hle : pyInt ((numJobs : ℚ) * (offload / 100)) ≤ (numJobs : ℤ) := by
    rw [pyInt_of_nonneg _ hq0]
    have : (numJobs : ℚ) * (offload / 100) ≤ (numJobs : ℚ) := by
      have : offload / 100 ≤ 1 := by linarith
      nlinarith [Nat.cast_nonneg (α := ℚ) numJobs]
    calc ⌊(numJobs : ℚ) * (offload / 100)⌋ ≤ ⌊(numJobs : ℚ)⌋ :=
          Int.floor_le_floor this
      _ = (numJobs : ℤ) := Int.floor_natCast numJobs
  have hground : 0 ≤ (numJobs : ℤ) - pyInt ((numJobs : ℚ) * (offload / 100)) := by
    omega
  constructor
  · apply List.sum_nonneg
    intro x hx
    obtain ⟨n, _, rfl⟩ := List.mem_map.mp hx
    apply hubPowerMw_nonneg
    split
    · exact le_refl 0
    · exact Int.fdiv_nonneg horb (by positivity)
  · apply List.sum_nonneg
    intro x hx
    obtain ⟨s, _, rfl⟩ := List.mem_map.mp hx
    apply sitePowerMw_nonneg
    exact Int.fdiv_nonneg hground (by norm_num)

/-- Helper: range and zero characterisation of `orbit_share` for
nonnegative power totals. -/
theorem orbitShare_props (op gp : ℚ) (hop : 0 ≤ op) (hgp : 0 ≤ gp) :
    0 ≤ orbitShare op gp ∧ orbitShare op gp ≤ 100 ∧
    (orbitShare op gp = 0 ↔ op = 0) := by
  unfold orbitShare
  by_cases hpos : 0 < op + gp
  · rw [if_pos hpos]
    refine ⟨by positivity, ?_, ?_⟩
    · have h1 : op / (op + gp) ≤ 1 := by
        rw [div_le_one hpos]
        linarith
      nlinarith [div_nonneg hop (le_of_lt hpos)]
    · constructor
      · intro h
        have := mul_eq_zero.mp h
        rcases this with h | h
        · exact (div_eq_zero_iff.mp h).elim id
            (fun hz => absurd hz (ne_of_gt hpos))
        · norm_num at h
      · intro h
        rw [h, zero_div, zero_mul]
  · rw [if_neg hpos]
    have hop0 : op = 0 := by
      push_neg at hpos
      linarith
    exact ⟨le_refl 0, by norm_num, by simp [hop0]⟩

/-- C4 (amended): for every tick configuration with the offload
percentage in its clamped range [0, 100], the computed `orbitSharePercent`
lies in [0, 100], and it equals 0 exactly when the total orbital power is
0 (in particular when both totals are 0).  The stated claim — zero share
exactly when both totals are zero — fails in the direction recorded by
`orbit_share_zero_with_ground_power`. -/
theorem orbit_share_range (numJobs : ℕ) (offload : ℚ) (hubSizes : List ℕ)
    (mode : String) (h0 : 0 ≤ offload) (h100 : offload ≤ 100) :
    0 ≤ orbitShare (tickPowerTotals numJobs offload hubSizes mode).1
        (tickPowerTotals numJobs offload hubSizes mode).2 ∧
    orbitShare (tickPowerTotals numJobs offload hubSizes mode).1
        (tickPowerTotals numJobs offload hubSizes mode).2 ≤ 100 ∧
    (orbitShare (tickPowerTotals numJobs offload hubSizes mode).1
        (tickPowerTotals numJobs offload hubSizes mode).2 = 0 ↔
      (tickPowerTotals numJobs offload hubSizes mode).1 = 0) := by
  obtain ⟨hop, hgp⟩ :=
    tickPowerTotals_nonneg numJobs offload hubSizes mode h0 h100
  exact orbitShare_props _ _ hop hgp

/-- C4 witness: `orbit_share_range` instantiated at 10 jobs, the default
30% offload, one hub of two satellites, normal mode. -/
theorem orbit_share_range_witness :
    (0:ℚ) ≤ 30 ∧ (30:ℚ) ≤ 100 ∧
    (0 ≤ orbitShare (tickPowerTotals 10 30 [2] "normal").1
        (tickPowerTotals 10 30 [2] "normal").2 ∧
    orbitShare (tickPowerTotals 10 30 [2] "normal").1
        (tickPowerTotals 10 30 [2] "normal").2 ≤ 100 ∧
    (orbitShare (tickPowerTotals 10 30 [2] "normal").1
        (tickPowerTotals 10 30 [2] "normal").2 = 0 ↔
      (tickPowerTotals 10 30 [2] "normal").1 = 0)) :=
  ⟨by norm_num, by norm_num,
    orbit_share_range 10 30 [2] "normal" (by norm_num) (by norm_num)⟩

/-- C4 counterexample: with 8 jobs and offload percentage 0 (reachable:
`POST /scenario` accepts any value in [0, 100]), every hub gets 0 jobs so
the orbital power total is 0, the ground power total is positive, and the
share is 0 — refuting "equals 0 if and only if both total orbital power
and total ground power are 0". -/
theorem orbit_share_zero_with_ground_power :
    orbitShare (tickPowerTotals 8 0 [1, 1, 1, 1] "normal").1
        (tickPowerTotals 8 0 [1, 1, 1, 1] "normal").2 = 0 ∧
    (tickPowerTotals 8 0 [1, 1, 1, 1] "normal").2 ≠ 0 := by
  have hfd0 : Int.fdiv 0 4 = 0 := by decide
  have hfd8 : Int.fdiv 8 4 = 2 := by decide
  have hs : (("normal" : String) == "fiber_cut") = false := by rfl
  have ht : tickPowerTotals 8 0 [1, 1, 1, 1] "normal" = (0, 26/5) := by
    simp only [tickPowerTotals, groundSiteSpecs, pyInt]
    norm_num [hfd0, hfd8, hs, hubPowerMw, hubUtil, sitePowerMw, min_def]
  rw [ht]
  norm_num [orbitShare]

/-! ## C9: the failure environment's bounded history window -/

/-- Helper: the length of the window after one `step`. -/
theorem failureEnvStep_length (w : World) (h : List (ℚ × ℚ)) (a hr : ℕ)
    (d : JobDraws) :
    (failureEnvStep w h a hr d).2.1.length =
      if 5 < h.length + 1 then h.length else h.length + 1 := by
  simp only [failureEnvStep]
  split
  · next hlt =>
    rw [if_pos (by simpa using hlt)]
    simp [List.length_tail]
  · next hge =>
    rw [if_neg (by simpa using hge)]
    simp

/-- Helper: the window stays within the bound across any suffix of
operations, given it starts within the bound. -/
theorem runFailureOps_length_le (ops : List FailureOp) :
    ∀ (w : World) (h : List (ℚ × ℚ)), h.length ≤ 5 →
      (runFailureOps w h ops).2.length ≤ 5 := by
  induction ops with
  | nil => intro w h hh; simpa [runFailureOps]
  | cons op ops ih =>
    intro w h hh
    cases op with
    | reset =>
      simp only [runFailureOps]
      exact ih _ _ (by simp [failureEnvReset])
    | step a hr d =>
      simp only [runFailureOps]
      apply ih
      rw [failureEnvStep_length]
      split <;> omega

/-- C9: after any sequence of `reset()`/`step(action)` calls the history
window holds at most 5 entries; `reset` clears it to exactly the one
fresh sample; each `step` appends exactly one sample and pops the oldest
entry exactly when the window would exceed 5. -/
theorem failure_history_window_bounded :
    (∀ (w : World) (ops : List FailureOp),
      (runFailureOps w [] ops).2.length ≤ 5) ∧
    (∀ w : World, failureEnvReset w = [failureSample w]) ∧
    (∀ (w : World) (h : List (ℚ × ℚ)) (a hr : ℕ) (d : JobDraws),
      (failureEnvStep w h a hr d).2.1 =
        if 5 < h.length + 1 then
          (h ++ [(failureStepSample w a hr d).2]).tail
        else h ++ [(failureStepSample w a hr d).2]) := by
  refine ⟨fun w ops => runFailureOps_length_le ops w [] (by simp), fun w => rfl,
    fun w h a hr d => ?_⟩
  simp only [failureEnvStep, List.length_append, List.length_singleton]

/-! ## C10: LEO regions and the shell-outage no-op -/

/-- Helper: every LEO node built by `initialize` has region `"orbit"`. -/
theorem buildNodes_leo_region (numSats : ℕ) (node : Node)
    (hmem : node ∈ buildNodes numSats) (hleo : node.node_type = "leo") :
    node.region = "orbit" := by
  unfold buildNodes at hmem
  rcases List.mem_append.mp hmem with hmem | hmem
  · rcases List.mem_append.mp hmem with hmem | hmem
    · obtain ⟨s, _, rfl⟩ := List.mem_map.mp hmem
      simp at hleo
    · obtain ⟨g, _, rfl⟩ := List.mem_map.mp hmem
      simp at hleo
  · obtain ⟨i, _, rfl⟩ := List.mem_map.mp hmem
    rfl

/-- Helper: `dictInsert` never introduces a value that differs from every
previous value and from the inserted one. -/
theorem dictInsert_snd_not_mem (l : List (String × String)) (k v s : String)
    (hs : s ∉ l.map Prod.snd) (hv : v ≠ s) :
    s ∉ (dictInsert l k v).map Prod.snd := by
  unfold dictInsert
  split
  · intro hmem
    obtain ⟨p, hp, hps⟩ := List.mem_map.mp hmem
    obtain ⟨q, hq, hqe⟩ := List.mem_map.mp hp
    by_cases hqk : (q.1 == k) = true
    · rw [if_pos hqk] at hqe
      exact hv (by rw [← hqe] at hps; simpa using hps)
    · rw [if_neg (by simpa using hqk)] at hqe
      exact hs (List.mem_map.mpr ⟨q, hq, by rw [hqe, hps]⟩)
  · intro hmem
    rw [List.map_append] at hmem
    rcases List.mem_append.mp hmem with hmem | hmem
    · exact hs hmem
    · simp at hmem
      exact hv hmem.symm

/-- C10: in an `initialize()`-built world every LEO node's region is the
constant `"orbit"`; consequently, from any such world in which no
disabled shell records the region `"orbit"`, `disable_leo_shell` with any
region other than `"orbit"` (as the `leo_shell_outage` preset does with
`"pacific"`) leaves `get_candidate_nodes_for_job` unchanged for every
job. -/
theorem shell_outage_never_removes_candidates :
    (∀ (numSats : ℕ), ∀ node ∈ buildNodes numSats,
      node.node_type = "leo" → node.region = "orbit") ∧
    (∀ (w : World) (numSats : ℕ), w.nodes = buildNodes numSats →
      "orbit" ∉ w.disabled_shells.map Prod.snd →
      ∀ shellId region, region ≠ "orbit" →
      ∀ jobId, getCandidateNodes (disableLeoShell w shellId region) jobId =
        getCandidateNodes w jobId) := by
  refine ⟨fun numSats node hmem hleo => buildNodes_leo_region numSats node hmem hleo,
    fun w numSats hnodes hprev shellId region hr jobId => ?_⟩
  have hafter : "orbit" ∉
      ((disableLeoShell w shellId region).disabled_shells.map Prod.snd) :=
    dictInsert_snd_not_mem w.disabled_shells shellId region "orbit" hprev hr
  unfold getCandidateNodes
  simp only [disableLeoShell]
  cases hfind : w.pending_jobs.find? (fun j => j.id == jobId) with
  | none => rfl
  | some j =>
    apply List.filter_congr
    intro node hmemn
    have hmemn2 : node ∈ buildNodes numSats := by rw [← hnodes]; exact hmemn
    by_cases hleo : node.node_type = "leo"
    · have horb : node.region = "orbit" :=
        buildNodes_leo_region numSats node hmemn2 hleo
      have hc1 : ((dictInsert w.disabled_shells shellId region).map
          Prod.snd).contains node.region = false := by
        rw [horb]
        simpa using hafter
      have hc2 : (w.disabled_shells.map Prod.snd).contains node.region
          = false := by
        rw [horb]
        simpa using hprev
      rw [hc1, hc2]
    · have hne : (node.node_type == "leo") = false := by simpa using hleo
      rw [hne]
      simp

/-- The world built by `initialize` for two satellites, with one pending
job (used only by the C10 witness). -/
noncomputable def c10World : World :=
  { worldInit 2 with pending_jobs := [testJob] }

/-- C10 witness: the world built by `initialize` for two satellites with
one pending job; disabling `shell_1` over `pacific` (the
`leo_shell_outage` preset's arguments) leaves the candidate set of
`job_0` unchanged. -/
theorem shell_outage_never_removes_candidates_witness :
    c10World.nodes = buildNodes 2 ∧
    "orbit" ∉ c10World.disabled_shells.map Prod.snd ∧
    "pacific" ≠ "orbit" ∧
    getCandidateNodes (disableLeoShell c10World "shell_1" "pacific") "job_0" =
      getCandidateNodes c10World "job_0" :=
  ⟨rfl, by decide, by decide,
    shell_outage_never_removes_candidates.2 c10World 2 rfl (by decide)
      "shell_1" "pacific" (by decide) "job_0"⟩

/-! ## C8: TLE parsing -/

/-- The lines of a list of 3-line TLE groups, in order. -/
def tripleLines (ts : List (String × String × String)) : List String :=
  ts.flatMap (fun t => [t.1, t.2.1, t.2.2])

/-- Well-formedness check of one 3-line group: the second and third
stripped lines start with `"1 "` and `"2 "`. -/
def wfTriple (t : String × String × String) : Bool :=
  (pyStartsWith (pyStrip t.2.1) "1 ") && (pyStartsWith (pyStrip t.2.2) "2 ")

/-- The satellite objects a list of kept groups parses to. -/
def expectedSats : List (String × String × String) → List TleSat
  | [] => []
  | t :: ts =>
    mkEarthSatellite (pyStrip t.2.1) (pyStrip t.2.2) (pyStrip t.1) ::
      expectedSats ts

/-- The TLE records a list of kept groups parses to, ids numbered from
`n + 1`. -/
def expectedRecs : List (String × String × String) → ℕ → List TleRec
  | [], _ => []
  | t :: ts, n =>
    ⟨"sat_" ++ toString (n + 1), pyStrip t.1, pyStrip t.2.1, pyStrip t.2.2⟩ ::
      expectedRecs ts (n + 1)

/-- Helper: full characterisation of the 3-line group walk — exactly the
well-formed groups survive, in order, with sequential 1-based ids. -/
theorem parseGroups_tripleLines (ts : List (String × String × String)) :
    ∀ n : ℕ, parseGroups (tripleLines ts) n =
      (expectedSats (ts.filter wfTriple),
       expectedRecs (ts.filter wfTriple) n) := by
  induction ts with
  | nil => intro n; rfl
  | cons t ts ih =>
    intro n
    show parseGroups (t.1 :: t.2.1 :: t.2.2 :: tripleLines ts) n = _
    rw [parseGroups]
    by_cases hwf : wfTriple t = true
    · rw [if_pos (by simpa [wfTriple] using hwf)]
      rw [ih (n + 1)]
      simp [List.filter_cons, hwf, expectedSats, expectedRecs,
        mkEarthSatellite]
    · rw [if_neg (by simpa [wfTriple] using hwf)]
      rw [ih n]
      simp [List.filter_cons, hwf]

/-- Helper: `expectedSats` preserves length. -/
theorem expectedSats_length (ts : List (String × String × String)) :
    (expectedSats ts).length = ts.length := by
  induction ts with
  | nil => rfl
  | cons t ts ih => simp [expectedSats, ih]

/-- Helper: the ids of `expectedRecs ts n` are `sat_(n+1) .. sat_(n+|ts|)`. -/
theorem expectedRecs_ids (ts : List (String × String × String)) :
    ∀ n : ℕ, (expectedRecs ts n).map TleRec.id =
      (List.range ts.length).map (fun i => "sat_" ++ toString (n + i + 1)) := by
  induction ts with
  | nil => intro n; rfl
  | cons t ts ih =>
    intro n
    simp only [expectedRecs, List.map_cons, List.length_cons,
      List.range_succ_eq_map, List.map_map, Nat.add_zero]
    rw [ih (n + 1)]
    congr 1
    apply List.map_congr_left
    intro i _
    simp only [Function.comp_apply]
    congr 2
    omega

/-- C8: (a) a line list of N well-formed 3-line groups parses to exactly
N satellite objects and N parallel records with 1-indexed ids
`sat_1 .. sat_N`; (b) dropping the malformed groups first does not change
the parse — a malformed group is dropped without affecting the other
groups at their fixed 3-line offsets (survivors are renumbered
sequentially). -/
theorem parse_tles_wellformed_groups :
    (∀ ts : List (String × String × String), (∀ t ∈ ts, wfTriple t = true) →
      (parseGroups (tripleLines ts) 0).1.length = ts.length ∧
      (parseGroups (tripleLines ts) 0).2.map TleRec.id =
        (List.range ts.length).map (fun i => "sat_" ++ toString (i + 1))) ∧
    (∀ ts : List (String × String × String),
      parseGroups (tripleLines ts) 0 =
        parseGroups (tripleLines (ts.filter wfTriple)) 0) := by
  constructor
  · intro ts hwf
    have hfix : ts.filter wfTriple = ts := List.filter_eq_self.mpr hwf
    rw [parseGroups_tripleLines ts 0, hfix]
    refine ⟨expectedSats_length ts, ?_⟩
    rw [expectedRecs_ids ts 0]
    apply List.map_congr_left
    intro i _
    norm_num
  · intro ts
    rw [parseGroups_tripleLines ts 0,
      parseGroups_tripleLines (ts.filter wfTriple) 0]
    congr 1 <;> rw [List.filter_filter] <;> simp

/-- C8 witness: two well-formed groups parse to two satellites with ids
`sat_1`, `sat_2`; inserting a malformed group between them drops only the
malformed group. -/
theorem parse_tles_wellformed_groups_witness :
    ([("SAT A", "1 11111", "2 11111"),
      ("SAT B", "1 22222", "2 22222")].all wfTriple) = true ∧
    (parseGroups (tripleLines
        [("SAT A", "1 11111", "2 11111"),
         ("SAT B", "1 22222", "2 22222")]) 0).1.length = 2 ∧
    (parseGroups (tripleLines
        [("SAT A", "1 11111", "2 11111"),
         ("SAT B", "1 22222", "2 22222")]) 0).2.map TleRec.id =
      (List.range 2).map (fun i => "sat_" ++ toString (i + 1)) ∧
    parseGroups (tripleLines
        [("SAT A", "1 11111", "2 11111"),
         ("BAD", "x", "y"),
         ("SAT B", "1 22222", "2 22222")]) 0 =
      parseGroups (tripleLines
        ([("SAT A", "1 11111", "2 11111"),
          ("BAD", "x", "y"),
          ("SAT B", "1 22222", "2 22222")].filter wfTriple)) 0 :=
  ⟨by decide,
    (parse_tles_wellformed_groups.1 _ (by decide)).1,
    (parse_tles_wellformed_groups.1 _ (by decide)).2,
    parse_tles_wellformed_groups.2 _⟩

/-! ## C7: the fetch fallback chain -/

/-- Helper: the dummy fleet has exactly 100 satellites. -/
theorem createDummySatellites_length : createDummySatellites.length = 100 := by
  simp [createDummySatellites]

/-- C7: `fetch_and_cache_tles` follows the fallback chain — a fresh cache
(age < 2 h) is parsed and returned with no network use; with no fresh
cache, the first successful URL's parse is returned; with both URLs
failing, an existing (stale) cache file is parsed; with both URLs failing
and no cache file at all, the 100 deterministic placeholder satellites
are returned.  Every failure path of the Python method is caught, which
the model reflects by being a total function of its environment. -/
theorem fetch_fallback_chain :
    (∀ (env : FetchEnv) (t : ℚ), env.cacheExists = true →
      env.cacheTimeExists = true → env.cacheTime = some t →
      env.now - t < 7200 →
      fetchAndCacheTles env = (.freshCache, loadFromCache env)) ∧
    (∀ (env : FetchEnv) (sats : List TleSat), env.cacheTimeExists = false →
      urlSuccess env.url1 = some sats →
      fetchAndCacheTles env = (.network, sats)) ∧
    (∀ env : FetchEnv, env.cacheExists = true → env.cacheTimeExists = false →
      urlSuccess env.url1 = none → urlSuccess env.url2 = none →
      fetchAndCacheTles env = (.staleCache, loadFromCache env)) ∧
    (∀ env : FetchEnv, env.cacheExists = false →
      urlSuccess env.url1 = none → urlSuccess env.url2 = none →
      fetchAndCacheTles env = (.dummy, createDummySatellites)) ∧
    createDummySatellites.length = 100 := by
  refine ⟨?_, ?_, ?_, ?_, createDummySatellites_length⟩
  · intro env t hce hcte hct hfresh
    simp [fetchAndCacheTles, hce, hcte, hct, hfresh]
  · intro env sats hcte hurl
    simp [fetchAndCacheTles, hcte, fetchFromUrls, hurl]
  · intro env hce hcte hurl1 hurl2
    simp [fetchAndCacheTles, hce, hcte, fetchFromUrls, hurl1, hurl2]
  · intro env hce hurl1 hurl2
    simp [fetchAndCacheTles, hce, fetchFromUrls, hurl1, hurl2]

/-- C7 witness: the four chain clauses instantiated at concrete
environments — in particular, with both URLs down and no cache file the
returned fleet is the dummy fleet of exactly 100 satellites. -/
theorem fetch_fallback_chain_witness :
    fetchAndCacheTles ⟨true, true, some 0, 0, "", .failure, .failure⟩ =
      (.freshCache, loadFromCache ⟨true, true, some 0, 0, "", .failure, .failure⟩) ∧
    fetchAndCacheTles ⟨false, false, none, 0, "",
        .response 200 "S\n1 a\n2 b", .failure⟩ =
      (.network, [⟨"S", "1 a", "2 b"⟩]) ∧
    fetchAndCacheTles ⟨true, false, none, 0, "", .failure, .failure⟩ =
      (.staleCache, loadFromCache ⟨true, false, none, 0, "", .failure, .failure⟩) ∧
    fetchAndCacheTles ⟨false, false, none, 0, "", .failure, .failure⟩ =
      (.dummy, createDummySatellites) ∧
    createDummySatellites.length = 100 :=
  ⟨fetch_fallback_chain.1 ⟨true, true, some 0, 0, "", .failure, .failure⟩ 0
      rfl rfl rfl (by norm_num),
    fetch_fallback_chain.2.1 ⟨false, false, none, 0, "",
        .response 200 "S\n1 a\n2 b", .failure⟩ [⟨"S", "1 a", "2 b"⟩] rfl
      (by decide),
    fetch_fallback_chain.2.2.1 ⟨true, false, none, 0, "", .failure, .failure⟩
      rfl rfl rfl rfl,
    fetch_fallback_chain.2.2.2.1 ⟨false, false, none, 0, "", .failure, .failure⟩
      rfl rfl rfl,
    fetch_fallback_chain.2.2.2.2⟩

/-! ## C1: the routing controller raises on its `self.world` lookup -/

/-- Helper: the controller's `self.world` attribute lookup always raises
(`world` is not among the attributes `__init__` assigns). -/
theorem controllerGetWorld_error :
    controllerGetWorld = .error .attributeError := rfl

/-- Helper: in a node list with distinct ids, the dict lookup by a
member's id finds exactly that member. -/
theorem find_id_eq_of_mem (l : List Node) (x : Node) (hx : x ∈ l)
    (hnd : (l.map Node.id).Nodup) :
    l.find? (fun n => n.id == x.id) = some x := by
  induction l with
  | nil => cases hx
  | cons y ys ih =>
    by_cases hy : y.id = x.id
    · rw [List.find?_cons_of_pos _ (by simpa using hy)]
      rcases List.mem_cons.mp hx with h | h
      · rw [h]
      · exfalso
        have hyid : y.id ∉ ys.map Node.id := (List.nodup_cons.mp hnd).1
        exact hyid (hy ▸ List.mem_map.mpr ⟨x, h, rfl⟩)
    · rw [List.find?_cons_of_neg _ (by simpa using hy)]
      have hx2 : x ∈ ys := by
        rcases List.mem_cons.mp hx with h | h
        · exact absurd (h ▸ rfl) hy
        · exact h
      exact ih hx2 (List.nodup_cons.mp hnd).2

/-- Helper: a candidate node is in the node map and has positive
capacity. -/
theorem candidate_mem_spec (w : World) (jobId : String) (node : Node)
    (h : node ∈ getCandidateNodes w jobId) :
    node ∈ w.nodes ∧ 0 < node.capacity_flops := by
  unfold getCandidateNodes at h
  cases hfind : w.pending_jobs.find? (fun j => j.id == jobId) with
  | none => rw [hfind] at h; cases h
  | some j =>
    rw [hfind] at h
    obtain ⟨hmem, hpred⟩ := List.mem_filter.mp h
    refine ⟨hmem, ?_⟩
    have := (Bool.and_eq_true _ _).mp hpred
    simpa using this.2

/-- Helper: routing the head pending job to a node that the node map
resolves to itself, with nonzero capacity, succeeds with a metrics
dict. -/
theorem routeJob_head_ok (w : World) (job : Job) (rest : List Job)
    (node : Node) (hp : w.pending_jobs = job :: rest)
    (hn : w.nodes.find? (fun n => n.id == node.id) = some node)
    (hcap : node.capacity_flops ≠ 0) :
    ∃ lat cost slo w2,
      routeJob w job.id node.id = (.ok (.metrics lat cost slo), w2) := by
  unfold routeJob
  rw [hp, List.find?_cons_of_pos _ (by simp), hn]
  simp only [pydiv, if_neg hcap]
  exact ⟨_, _, _, _, rfl⟩

/-- Helper: `stepAndRelabel` on a candidate of the head pending job
always returns the raised `AttributeError`. -/
theorem stepAndRelabel_raises (w : World) (ag : RoutingBanditAgent)
    (state : Fin 8 → ℝ) (job : Job) (rest : List Job) (chosen : Node)
    (hp : w.pending_jobs = job :: rest)
    (hmem : chosen ∈ getCandidateNodes w job.id)
    (hnd : (w.nodes.map Node.id).Nodup) :
    (stepAndRelabel w ag state job chosen).1 = .error .attributeError := by
  obtain ⟨hmemn, hcap⟩ := candidate_mem_spec w job.id chosen hmem
  obtain ⟨lat, cost, slo, w2, hroute⟩ :=
    routeJob_head_ok w job rest chosen hp
      (find_id_eq_of_mem w.nodes chosen hmemn hnd) (ne_of_gt hcap)
  simp [stepAndRelabel, hroute, controllerGetWorld_error]

/-- C1: whenever the pending-job queue is non-empty and the head job has
a non-empty candidate set (and node ids are distinct, as `_build_nodes`
guarantees), `decide_for_next_job()` raises `AttributeError` at its
`self.world.active_routes` lookup (`RoutingController.__init__` never
assigns `self.world`) — after having already routed the job and updated
the agent.  It never returns a `RoutingDecision` in this situation, for
every outcome of the agent's random draws. -/
theorem decide_for_next_job_raises (w : World) (ag : RoutingBanditAgent)
    (randVal : ℝ) (randIdx : ℕ) (job : Job) (rest : List Job)
    (hp : w.pending_jobs = job :: rest)
    (hc : getCandidateNodes w job.id ≠ [])
    (hnd : (w.nodes.map Node.id).Nodup) :
    (decideForNextJob w ag randVal randIdx).1 = .error .attributeError := by
  obtain ⟨c0, cs, hcc⟩ := List.exists_cons_of_ne_nil hc
  have hhead : w.pending_jobs.head? = some job := by rw [hp]; rfl
  simp only [decideForNextJob, hhead, hcc]
  refine stepAndRelabel_raises w ag _ job rest _ hp ?_ hnd
  rw [hcc]
  exact List.get_mem _ _ _

/-- A zero-weight bandit agent (the `__init__` state), for the witness. -/
noncomputable def c1Agent : RoutingBanditAgent := ⟨fun _ => 0⟩

/-- C1 witness: at the concrete world `cWorld` (one pending job, the
`initialize` node set for two satellites) the hypotheses hold and the
call raises. -/
theorem decide_for_next_job_raises_witness :
    cWorld.pending_jobs = testJob :: [] ∧
    getCandidateNodes cWorld testJob.id ≠ [] ∧
    (cWorld.nodes.map Node.id).Nodup ∧
    (decideForNextJob cWorld c1Agent 1 0).1 = .error .attributeError :=
  ⟨rfl, by decide, by decide,
    decide_for_next_job_raises cWorld c1Agent 1 0 testJob [] rfl
      (by decide) (by decide)⟩

/-! ## C5: sunlit classification boundaries -/

/-- Helper: magnitudes are nonnegative. -/
theorem mag_nonneg (v : Vec3) : 0 ≤ mag v := Real.sqrt_nonneg _

/-- Helper: the dot product of the componentwise-normalised vectors is
the dot product over the product of magnitudes. -/
theorem dot3_norm_eq (a b : Vec3) (ha : mag a ≠ 0) (hb : mag b ≠ 0) :
    dot3 (normVec a) (normVec b) = dot3 a b / (mag a * mag b) := by
  unfold normVec dot3
  field_simp

/-- Helper: the clamp never exceeds 1. -/
theorem clamp1_le_one (t : ℝ) : clamp1 t ≤ 1 :=
  max_le (by norm_num) (min_le_left _ _)

/-- Helper: the clamp of a nonpositive value is nonpositive. -/
theorem clamp1_nonpos (t : ℝ) (h : t ≤ 0) : clamp1 t ≤ 0 :=
  max_le (by norm_num) (le_trans (min_le_right _ _) h)

/-- Helper: the clamp fixes 0. -/
theorem clamp1_zero : clamp1 0 = 0 := by
  unfold clamp1
  rw [min_eq_right (by norm_num), max_eq_right (by norm_num)]

/-- Helper: the shadow half-angle never exceeds `pi / 2`. -/
theorem shadowAngle_le (d : ℝ) : shadowAngle d ≤ Real.pi / 2 := by
  unfold shadowAngle
  split
  · exact Real.arcsin_le_pi_div_two _
  · exact le_refl _

/-- C5: `compute_sunlit` classifies as sunlit a satellite whose
Earth-satellite/Earth-Sun angle is exactly 90° (zero dot product); as not
sunlit a night-side satellite whose angle exceeds the umbra angle
`pi - asin(6371/|r_sat|)` (for `|r_sat| > 6371`); and as sunlit a
satellite at the sub-solar point (angle 0), for every satellite
distance. -/
theorem compute_sunlit_boundaries :
    (∀ satPos earthPos sunPos : Vec3,
      mag (relVec satPos earthPos) ≠ 0 → mag (relVec sunPos earthPos) ≠ 0 →
      dot3 (relVec satPos earthPos) (relVec sunPos earthPos) = 0 →
      computeSunlit satPos earthPos sunPos = true) ∧
    (∀ satPos earthPos sunPos : Vec3,
      mag (relVec satPos earthPos) ≠ 0 → mag (relVec sunPos earthPos) ≠ 0 →
      6371 < mag (relVec satPos earthPos) →
      dot3 (relVec satPos earthPos) (relVec sunPos earthPos) ≤ 0 →
      Real.pi - Real.arcsin (6371 / mag (relVec satPos earthPos)) <
        angleBetween (relVec satPos earthPos) (relVec sunPos earthPos) →
      computeSunlit satPos earthPos sunPos = false) ∧
    (∀ satPos earthPos sunPos : Vec3,
      mag (relVec satPos earthPos) ≠ 0 → mag (relVec sunPos earthPos) ≠ 0 →
      angleBetween (relVec satPos earthPos) (relVec sunPos earthPos) = 0 →
      computeSunlit satPos earthPos sunPos = true) := by
  refine ⟨?_, ?_, ?_⟩
  · intro s e u ha hb hdot
    unfold computeSunlit
    rw [if_neg (not_or.mpr ⟨ha, hb⟩)]
    have hd : dotNorm (relVec s e) (relVec u e) = 0 := by
      unfold dotNorm
      rw [dot3_norm_eq _ _ ha hb, hdot, zero_div, clamp1_zero]
    rw [if_pos (by rw [hd])]
    have hang : angleBetween (relVec s e) (relVec u e) = Real.pi / 2 := by
      unfold angleBetween
      rw [hd, Real.arccos_zero]
    have hsh := shadowAngle_le (mag (relVec s e))
    rw [if_neg (by
      rw [hang]
      unfold umbraAngle
      push_neg
      linarith)]
    rw [if_neg (by
      rw [hang]
      unfold penumbraThreshold
      push_neg
      have hpi := Real.pi_pos
      linarith)]
  · intro s e u ha hb hdist hdot hang
    unfold computeSunlit
    rw [if_neg (not_or.mpr ⟨ha, hb⟩)]
    have hd : dotNorm (relVec s e) (relVec u e) ≤ 0 := by
      unfold dotNorm
      apply clamp1_nonpos
      rw [dot3_norm_eq _ _ ha hb]
      exact div_nonpos_iff.mpr
        (Or.inr ⟨hdot, mul_nonneg (mag_nonneg _) (mag_nonneg _)⟩)
    rw [if_pos hd]
    have humb : umbraAngle (mag (relVec s e)) =
        Real.pi - Real.arcsin (6371 / mag (relVec s e)) := by
      unfold umbraAngle shadowAngle
      rw [if_pos hdist]
    rw [if_pos (by rw [humb]; exact hang)]
  · intro s e u ha hb hang0
    unfold computeSunlit
    rw [if_neg (not_or.mpr ⟨ha, hb⟩)]
    have h1 : (1:ℝ) ≤ dotNorm (relVec s e) (relVec u e) := by
      unfold angleBetween at hang0
      exact Real.arccos_eq_zero.mp hang0
    rw [if_neg (by push_neg; linarith)]

/-- Helper: subtracting the origin is the identity. -/
theorem relVec_zero (v : Vec3) : relVec v ⟨0, 0, 0⟩ = v := by
  obtain ⟨x, y, z⟩ := v
  simp [relVec]

/-- Helper: magnitude of a vector along the first axis. -/
theorem mag_axis (c : ℝ) (hc : 0 ≤ c) : mag ⟨c, 0, 0⟩ = c := by
  unfold mag
  rw [show c ^ 2 + (0:ℝ) ^ 2 + (0:ℝ) ^ 2 = c ^ 2 by ring]
  exact Real.sqrt_sq hc

/-- Helper: magnitude of a vector along the negative first axis. -/
theorem mag_axis_neg (c : ℝ) (hc : 0 ≤ c) : mag ⟨-c, 0, 0⟩ = c := by
  unfold mag
  rw [show (-c) ^ 2 + (0:ℝ) ^ 2 + (0:ℝ) ^ 2 = c ^ 2 by ring]
  exact Real.sqrt_sq hc

/-- Helper: magnitude of a vector along the second axis. -/
theorem mag_axis_y (c : ℝ) (hc : 0 ≤ c) : mag ⟨0, c, 0⟩ = c := by
  unfold mag
  rw [show (0:ℝ) ^ 2 + c ^ 2 + (0:ℝ) ^ 2 = c ^ 2 by ring]
  exact Real.sqrt_sq hc

/-- C5 witness: at Earth's origin, a satellite at (7000, 0, 0) km — with
the Sun at right angles (0, 2, 0), antipodal (-3, 0, 0) (angle pi, past
the umbra angle pi - asin(6371/7000)), and sub-solar (2, 0, 0) — is
classified sunlit, dark, and sunlit respectively. -/
theorem compute_sunlit_boundaries_witness :
    dot3 (relVec ⟨7000, 0, 0⟩ ⟨0, 0, 0⟩) (relVec ⟨0, 2, 0⟩ ⟨0, 0, 0⟩) = 0 ∧
    computeSunlit ⟨7000, 0, 0⟩ ⟨0, 0, 0⟩ ⟨0, 2, 0⟩ = true ∧
    (6371 < mag (relVec ⟨7000, 0, 0⟩ ⟨0, 0, 0⟩) ∧
      Real.pi - Real.arcsin (6371 / mag (relVec ⟨7000, 0, 0⟩ ⟨0, 0, 0⟩)) <
        angleBetween (relVec ⟨7000, 0, 0⟩ ⟨0, 0, 0⟩)
          (relVec ⟨-3, 0, 0⟩ ⟨0, 0, 0⟩) ∧
      computeSunlit ⟨7000, 0, 0⟩ ⟨0, 0, 0⟩ ⟨-3, 0, 0⟩ = false) ∧
    (angleBetween (relVec ⟨7000, 0, 0⟩ ⟨0, 0, 0⟩)
        (relVec ⟨2, 0, 0⟩ ⟨0, 0, 0⟩) = 0 ∧
      computeSunlit ⟨7000, 0, 0⟩ ⟨0, 0, 0⟩ ⟨2, 0, 0⟩ = true) := by
  have hm7 : mag (relVec ⟨7000, 0, 0⟩ ⟨0, 0, 0⟩) = 7000 := by
    rw [relVec_zero]
    exact mag_axis 7000 (by norm_num)
  have hm2y : mag (relVec ⟨0, 2, 0⟩ ⟨0, 0, 0⟩) = 2 := by
    rw [relVec_zero]
    exact mag_axis_y 2 (by norm_num)
  have hm3 : mag (relVec ⟨-3, 0, 0⟩ ⟨0, 0, 0⟩) = 3 := by
    rw [relVec_zero]
    exact mag_axis_neg 3 (by norm_num)
  have hm2x : mag (relVec ⟨2, 0, 0⟩ ⟨0, 0, 0⟩) = 2 := by
    rw [relVec_zero]
    exact mag_axis 2 (by norm_num)
  have ha : mag (relVec (⟨7000, 0, 0⟩ : Vec3) ⟨0, 0, 0⟩) ≠ 0 := by
    rw [hm7]; norm_num
  have hdot90 : dot3 (relVec ⟨7000, 0, 0⟩ ⟨0, 0, 0⟩)
      (relVec ⟨0, 2, 0⟩ ⟨0, 0, 0⟩) = 0 := by
    rw [relVec_zero, relVec_zero]
    unfold dot3
    norm_num
  have habB : angleBetween (relVec ⟨7000, 0, 0⟩ ⟨0, 0, 0⟩)
      (relVec ⟨-3, 0, 0⟩ ⟨0, 0, 0⟩) = Real.pi := by
    unfold angleBetween dotNorm
    rw [dot3_norm_eq _ _ ha (by rw [hm3]; norm_num), hm7, hm3]
    rw [relVec_zero, relVec_zero]
    rw [show dot3 ⟨7000, 0, 0⟩ ⟨-3, 0, 0⟩ / ((7000:ℝ) * 3) = -1 by
      unfold dot3; norm_num]
    rw [show clamp1 (-1) = -1 by
      unfold clamp1; rw [min_eq_right (by norm_num), max_self]]
    exact Real.arccos_neg_one
  have habC : angleBetween (relVec ⟨7000, 0, 0⟩ ⟨0, 0, 0⟩)
      (relVec ⟨2, 0, 0⟩ ⟨0, 0, 0⟩) = 0 := by
    unfold angleBetween dotNorm
    rw [dot3_norm_eq _ _ ha (by rw [hm2x]; norm_num), hm7, hm2x]
    rw [relVec_zero, relVec_zero]
    rw [show dot3 ⟨7000, 0, 0⟩ ⟨2, 0, 0⟩ / ((7000:ℝ) * 2) = 1 by
      unfold dot3; norm_num]
    rw [show clamp1 1 = 1 by
      unfold clamp1; rw [min_self, max_eq_right (by norm_num)]]
    exact Real.arccos_one
  have hangB : Real.pi - Real.arcsin (6371 / mag (relVec ⟨7000, 0, 0⟩ ⟨0, 0, 0⟩)) <
      angleBetween (relVec ⟨7000, 0, 0⟩ ⟨0, 0, 0⟩)
        (relVec ⟨-3, 0, 0⟩ ⟨0, 0, 0⟩) := by
    rw [habB, hm7]
    have : 0 < Real.arcsin (6371 / 7000) :=
      Real.arcsin_pos.mpr (by norm_num)
    linarith
  refine ⟨hdot90, ?_, ⟨by rw [hm7]; norm_num, hangB, ?_⟩, ⟨habC, ?_⟩⟩
  · exact compute_sunlit_boundaries.1 _ _ _ ha (by rw [hm2y]; norm_num) hdot90
  · exact compute_sunlit_boundaries.2.1 _ _ _ ha (by rw [hm3]; norm_num)
      (by rw [hm7]; norm_num) (by
        rw [relVec_zero, relVec_zero]
        unfold dot3
        norm_num) hangB
  · exact compute_sunlit_boundaries.2.2 _ _ _ ha (by rw [hm2x]; norm_num) habC
